import Mathlib

/-!
Verification of src/ch16/p3_c16.py (Chapter 16, "Coping with the Command Line").

The development shallowly embeds the parts of the program that the claims are
about: layered configuration resolution (ChainMap plus parse_args with an
explicit namespace), the Command attribute-merging set_config, the strategy
registry dictionaries of Simulate_Command, the Analyze_Command single-pass
summarizer, Command_Sequence composition, and the ForAllBets_Simulate loop
expansion.  Python floats are modelled as rationals; the delimited-record
writer/reader round-trips field lists (the spec treats the sink serializer as
an external collaborator).  The simulation engine (imported from
simulation_model, a repository file not under src/) is, per the spec, "an
opaque producer of per-round outcome records": it is passed everywhere as an
explicit oracle parameter from configurations to record lists.
-/

namespace P3C16

/-- collections.ChainMap lookup (line 129-133): the maps are consulted in
order and the first map defining a key supplies its value. -/
def chainLookup {V : Type} : List (String → Option V) → String → Option V
  | [], _ => none
  | m :: rest, k =>
    match m k with
    | some v => some v
    | none => chainLookup rest k

/-- Modelled from the spec: the argparse parsing surface (parse_args with an
explicit namespace, lines 97-110 and 135-136) is outside src/ and is specified
in section 4.1 as: explicit CLI values have the highest priority and always
win; a namespace value suppresses the parser's declared default for that
field; the parser's own default for samples (lines 65-67) is itself derived
from the environment with a built-in fallback.  Flattened, the resolution of
one field walks the four layers explicit CLI override, explicit namespace
defaults, environment-derived values, built-in defaults in that order, first
defined wins. -/
def resolveField {V : Type} (cli ns env bi : String → Option V) (k : String) : Option V :=
  chainLookup [cli, ns, env, bi] k

/-- Command.set_config (lines 310-311): self.__dict__.update(config.__dict__).
A dict update: every field defined by config takes config's value; a field not
defined by config keeps whatever value self already had. -/
def Command.set_config {V : Type} (self config : String → Option V) : String → Option V :=
  fun k =>
    match config k with
    | some v => some v
    | none => self k

/-- The configuration fields that the simulate and analyze steps read
(the dests declared on the parser, lines 47-72, minus the logging flags). -/
structure Config where
  dealer_rule : String
  split_rule : String
  player_rule : String
  betting_rule : String
  decks : Int
  limit : Int
  payout : String
  rounds : Int
  stake : Int
  samples : Int
  outputfile : String
deriving DecidableEq

/-- The dealer-rule classes of the simulation model, named by the registry. -/
inductive DealerRule
  | Hit17
  | Stand17
deriving DecidableEq

/-- The split-rule classes of the simulation model, named by the registry. -/
inductive SplitRule
  | ReSplit
  | NoReSplit
  | NoReSplitAces
deriving DecidableEq

/-- The player-rule classes of the simulation model, named by the registry. -/
inductive PlayerRule
  | SomeStrategy
  | AnotherStrategy
deriving DecidableEq

/-- The betting-rule classes of the simulation model, named by the registry. -/
inductive BettingRule
  | Flat
  | Martingale
  | OneThreeTwoSix
deriving DecidableEq

/-- Simulate_Command.dealer_rule_map (line 319). -/
def dealer_rule_map (k : String) : Option DealerRule :=
  if k = "Hit17" then some DealerRule.Hit17
  else if k = "Stand17" then some DealerRule.Stand17
  else none

/-- Simulate_Command.split_rule_map (lines 320-321). -/
def split_rule_map (k : String) : Option SplitRule :=
  if k = "ReSplit" then some SplitRule.ReSplit
  else if k = "NoReSplit" then some SplitRule.NoReSplit
  else if k = "NoReSplitAces" then some SplitRule.NoReSplitAces
  else none

/-- Simulate_Command.player_rule_map (lines 322-323). -/
def player_rule_map (k : String) : Option PlayerRule :=
  if k = "SomeStrategy" then some PlayerRule.SomeStrategy
  else if k = "AnotherStrategy" then some PlayerRule.AnotherStrategy
  else none

/-- Simulate_Command.betting_rule_map (lines 324-325). -/
def betting_rule_map (k : String) : Option BettingRule :=
  if k = "Flat" then some BettingRule.Flat
  else if k = "Martingale" then some BettingRule.Martingale
  else if k = "OneThreeTwoSix" then some BettingRule.OneThreeTwoSix
  else none

/-- Decimal digit accumulation over a character list. -/
def digitsToNat : List Char → Nat → Option Nat
  | [], acc => some acc
  | c :: rest, acc =>
    if c.isDigit then digitsToNat rest (acc * 10 + (c.toNat - 48)) else none

/-- An optionally signed decimal integer literal over a character list. -/
def parseIntChars : List Char → Option Int
  | [] => none
  | '-' :: rest =>
    match rest with
    | [] => none
    | _ => (digitsToNat rest 0).map (fun n => -(n : Int))
  | cs => (digitsToNat cs 0).map (fun n => (n : Int))

/-- Splitting a character list at every comma. -/
def splitOnComma : List Char → List (List Char)
  | [] => [[]]
  | c :: rest =>
    match splitOnComma rest with
    | [] => if c = ',' then [[], []] else [[c]]
    | g :: gs => if c = ',' then [] :: g :: gs else (c :: g) :: gs

/-- Dropping the single trailing close-parenthesis of a character list. -/
def dropTrailingParen : List Char → Option (List Char)
  | [] => none
  | [c] => if c = ')' then some [] else none
  | c :: rest => (dropTrailingParen rest).map (fun cs => c :: cs)

/-- ast.literal_eval of the payout string followed by the two-element check
(lines 330-334), restricted to the parenthesised integer-pair tuple literals
the program uses: a parse failure or a structure of other than two elements
is the "Invalid payout" error. -/
def parsePayout (s : String) : Option (Int × Int) :=
  match s.data with
  | '(' :: rest =>
    match dropTrailingParen rest with
    | none => none
    | some inner =>
      match splitOnComma inner with
      | [a, b] =>
        match parseIntChars a, parseIntChars b with
        | some x, some y => some (x, y)
        | _, _ => none
      | _ => none
  | _ => none

/-- The Python exceptions that the embedded code paths can raise: KeyError
from a registry dict lookup (carrying, as in Python, only the missing key),
the "Invalid payout" Exception, FileNotFoundError from opening a missing
output file for reading, IndexError from row subscripting, and the
StopIteration escaping from next() on an exhausted outcome stream. -/
inductive PyError
  | keyError (key : String)
  | invalidPayout (payout : String)
  | fileNotFound (path : String)
  | indexError
  | stopIteration
deriving DecidableEq

deriving instance DecidableEq for Except

/-- One output record: the ordered field list of one simulated round. -/
abbrev Row := List ℚ

/-- One completed write of the csv writer: the target path and the rows
written to it (lines 342-344). -/
structure FileWrite where
  path : String
  rows : List Row
deriving DecidableEq

/-- The file system visible to the steps: each path optionally holds the
record rows last written to it. -/
abbrev FS := String → Option (List Row)

/-- Writing a file: the target path now holds exactly the written rows. -/
def applyWrite (fs : FS) (w : FileWrite) : FS :=
  fun path => if path = w.path then some w.rows else fs path

/-- Simulate_Command.run (lines 327-344): resolve the four strategy axes via
the registry dicts in source order (dealer, split, payout parse, player,
betting), each unknown key raising KeyError of that key; only after every
resolution succeeds is the output file opened and the simulated rows written.
The oracle stands for the external Simulate engine driven through csv.writerows. -/
def Simulate_Command.run (oracle : Config → List Row) (self : Config) :
    Except PyError FileWrite :=
  match dealer_rule_map self.dealer_rule with
  | none => Except.error (PyError.keyError self.dealer_rule)
  | some _dealer =>
    match split_rule_map self.split_rule with
    | none => Except.error (PyError.keyError self.split_rule)
    | some _split =>
      match parsePayout self.payout with
      | none => Except.error (PyError.invalidPayout self.payout)
      | some _payout =>
        match player_rule_map self.player_rule with
        | none => Except.error (PyError.keyError self.player_rule)
        | some _player =>
          match betting_rule_map self.betting_rule with
          | none => Except.error (PyError.keyError self.betting_rule)
          | some _betting =>
            Except.ok { path := self.outputfile, rows := oracle self }

/-- The output files created by a simulate run: one on success, none when the
run raised before reaching the open. -/
def writesOf (r : Except PyError FileWrite) : List FileWrite :=
  match r with
  | Except.ok w => [w]
  | Except.error _ => []

/-- The running aggregates of Analyze_Command.run (lines 362-368), with the
source's names: sum_0 is the count, sum_1 the running total, value_min and
value_max the running extrema. -/
structure Summary where
  sum_0 : Nat
  sum_1 : ℚ
  value_min : ℚ
  value_max : ℚ
deriving DecidableEq

/-- The for-loop of Analyze_Command.run (lines 364-368): one pass over the
remaining outcomes, updating count, total, min and max. -/
def summarizeLoop : Summary → List ℚ → Summary
  | acc, [] => acc
  | ⟨c, s, m, M⟩, v :: vs => summarizeLoop ⟨c + 1, s + v, min m v, max M v⟩ vs

/-- The summarizing pass of Analyze_Command.run (lines 361-368): first =
next(outcomes) raises StopIteration on an empty stream; otherwise the
aggregates start from the first outcome (count 1, total first, min and max
first) and the loop consumes the rest. -/
def summarize (outcomes : List ℚ) : Except PyError Summary :=
  match outcomes with
  | [] => Except.error PyError.stopIteration
  | first :: rest => Except.ok (summarizeLoop ⟨1, first, first, first⟩ rest)

/-- mean = sum_1/sum_0, computed at read time (line 369). -/
def mean (s : Summary) : ℚ := s.sum_1 / (s.sum_0 : ℚ)

/-- The house edge the report prints (line 370): 1 - mean/50 with the literal
constant 50. -/
def houseEdge (m : ℚ) : ℚ := 1 - m / 50

/-- Follows the spec's words (section 4.4), for comparison with the code:
edge = 1 - mean/reference_stake with a caller-supplied reference_stake. -/
def houseEdgeSpec (m reference_stake : ℚ) : ℚ := 1 - m / reference_stake

/-- The designated scalar of one record (line 360): float(row[10]), the field
at fixed 0-indexed position 10; a shorter row raises IndexError. -/
def outcomeField (row : Row) : Option ℚ := row.get? 10

/-- Follows the spec's words (section 6 and claim C9), for comparison with
the code: the field at fixed position 11 of the 0-indexed record. -/
def outcomeFieldSpec (row : Row) : Option ℚ := row.get? 11

/-- The outcome stream (float(row[10]) for row in rdr, line 360): the
designated field of every row, none when some consumed row is too short. -/
def extractOutcomes : List Row → Option (List ℚ)
  | [] => some []
  | row :: rest =>
    match outcomeField row, extractOutcomes rest with
    | some v, some vs => some (v :: vs)
    | _, _ => none

/-- What Analyze_Command.run reports (lines 357-370): the records it
consumed, the final aggregates, and the printed mean and house edge. -/
structure AnalyzeReport where
  consumed : List Row
  stats : Summary
  mean : ℚ
  edge : ℚ
deriving DecidableEq

/-- Analyze_Command.run (lines 356-370): open the configured output file for
reading (failing when it does not exist), stream the designated field of each
row into the summarizing pass, and report the aggregates together with the
printed mean = sum_1/sum_0 and house edge = 1 - mean/50. -/
def Analyze_Command.run (self : Config) (fs : FS) : Except PyError AnalyzeReport :=
  match fs self.outputfile with
  | none => Except.error (PyError.fileNotFound self.outputfile)
  | some rows =>
    match extractOutcomes rows with
    | none => Except.error PyError.indexError
    | some outs =>
      match summarize outs with
      | Except.error e => Except.error e
      | Except.ok s =>
        Except.ok ⟨rows, s, s.sum_1 / (s.sum_0 : ℚ), 1 - s.sum_1 / (s.sum_0 : ℚ) / 50⟩

/-- The two step kinds composed by Simulate_and_Analyze. -/
inductive StepKind
  | simulate
  | analyze
deriving DecidableEq

/-- Simulate_and_Analyze.sequence (line 385): the declared step order. -/
def Simulate_and_Analyze.sequence : List StepKind := [StepKind.simulate, StepKind.analyze]

/-- Command_Sequence.set_config (lines 376-378): the one bound configuration
is assigned to every constituent step, in compose order, before any run. -/
def Command_Sequence.set_config (steps : List StepKind) (cfg : Config) :
    List (StepKind × Config) :=
  steps.map (fun s => (s, cfg))

/-- Running one bound step: a simulate step writes its output file, an
analyze step reads its configured file and reports; an exception propagates. -/
def stepRun (oracle : Config → List Row) (fs : FS) :
    StepKind × Config → Except PyError (FS × List AnalyzeReport)
  | (StepKind.simulate, cfg) =>
    match Simulate_Command.run oracle cfg with
    | Except.error e => Except.error e
    | Except.ok w => Except.ok (applyWrite fs w, [])
  | (StepKind.analyze, cfg) =>
    match Analyze_Command.run cfg fs with
    | Except.error e => Except.error e
    | Except.ok r => Except.ok (fs, [r])

/-- Command_Sequence.run (lines 380-382): the bound steps execute strictly in
declaration order, each seeing the file system left by its predecessors. -/
def Command_Sequence.runSteps (oracle : Config → List Row) (fs : FS) :
    List (StepKind × Config) → Except PyError (FS × List AnalyzeReport)
  | [] => Except.ok (fs, [])
  | sc :: rest =>
    match stepRun oracle fs sc with
    | Except.error e => Except.error e
    | Except.ok (fs1, rs1) =>
      match Command_Sequence.runSteps oracle fs1 rest with
      | Except.error e => Except.error e
      | Except.ok (fs2, rs2) => Except.ok (fs2, rs1 ++ rs2)

/-- Simulate_and_Analyze bound and run (lines 384-390): set_config propagates
the configuration to both steps, then run executes them in order. -/
def Simulate_and_Analyze.run (oracle : Config → List Row) (cfg : Config) (fs : FS) :
    Except PyError (FS × List AnalyzeReport) :=
  Command_Sequence.runSteps oracle fs
    (Command_Sequence.set_config Simulate_and_Analyze.sequence cfg)

/-- The variant-derived output name of ForAllBets_Simulate.run (line 403):
"p3_c16_simulation7_" followed by the bet class name and ".dat". -/
def variantFile (bet : String) : String := "p3_c16_simulation7_" ++ bet ++ ".dat"

/-- The loop body of ForAllBets_Simulate.run (lines 400-406): for each bet
class, the unit's own betting_rule and outputfile fields are overwritten in
place, a fresh inner Simulate_Command absorbs the unit's current fields, and
the inner run executes; an exception aborts the remaining variants.  The
returned pair is the unit's final field state and the writes performed. -/
def forAllBetsLoop (oracle : Config → List Row) (self : Config) :
    List String → Config × Except PyError (List FileWrite)
  | [] => (self, Except.ok [])
  | bet :: rest =>
    match Simulate_Command.run oracle { self with betting_rule := bet, outputfile := variantFile bet } with
    | Except.error e =>
      ({ self with betting_rule := bet, outputfile := variantFile bet }, Except.error e)
    | Except.ok w =>
      match forAllBetsLoop oracle { self with betting_rule := bet, outputfile := variantFile bet } rest with
      | (final, Except.error e) => (final, Except.error e)
      | (final, Except.ok ws) => (final, Except.ok (w :: ws))

/-- ForAllBets_Simulate.run (lines 399-406): the loop over the three betting
variants in list order. -/
def ForAllBets_Simulate.run (oracle : Config → List Row) (self : Config) :
    Config × Except PyError (List FileWrite) :=
  forAllBetsLoop oracle self ["Flat", "Martingale", "OneThreeTwoSix"]

/-- The resolved configuration config5 (lines 115-137): parse_args of
["-b", "OneThreeTwoSix", "p3_c16_simulation5.dat"] over a namespace built
from ChainMap(environment-derived values, user config, system config) with
SIM_STAKE mocked to "100" (line 115) and SIM_SAMPLES and SIM_ROUNDS absent:
stake 100 from the environment layer, dealer_rule and split_rule from the
user layer, samples 100 and rounds 100 from the system layer, betting_rule
and outputfile from the CLI arguments, and the remaining fields from the
parser's declared defaults. -/
def config5 : Config :=
  { dealer_rule := "Hit17"
    split_rule := "NoReSplitAces"
    player_rule := "SomeStrategy"
    betting_rule := "OneThreeTwoSix"
    decks := 6
    limit := 50
    payout := "(3,2)"
    rounds := 100
    stake := 100
    samples := 100
    outputfile := "p3_c16_simulation5.dat" }

/-- config5 with an unknown betting_rule key, the spec's example input. -/
def cfgBadBetting : Config := { config5 with betting_rule := "DoesNotExist" }

/-- config5 with the same unknown key on the player axis instead. -/
def cfgBadPlayer : Config := { config5 with player_rule := "DoesNotExist" }

/-- A concrete engine oracle producing no rows, for closed evaluations. -/
def oracle0 : Config → List Row := fun _ => []

/-- An 11-field record whose designated position-10 field is 10. -/
def rowA : Row := [0, 1, 2, 3, 4, 5, 6, 7, 8, 9, 10]

/-- An 11-field record whose designated position-10 field is 90. -/
def rowB : Row := [0, 1, 2, 3, 4, 5, 6, 7, 8, 9, 90]

/-- An 11-field record whose designated position-10 field is 50. -/
def rowDemo : Row := [0, 1, 2, 3, 4, 5, 6, 7, 8, 9, 50]

/-- A concrete engine oracle producing two 11-field records for every
configuration, with outcomes 10 and 90. -/
def oracleW : Config → List Row := fun _ => [rowA, rowB]

/-- The empty file system. -/
def fs0 : FS := fun _ => none

/-- A file system holding one record of outcome 50 under config5's output
target. -/
def fsDemo : FS :=
  fun path => if path = "p3_c16_simulation5.dat" then some [rowDemo] else none

/-- A file system holding the two records of oracleW under config5's output
target. -/
def fsW : FS :=
  fun path => if path = "p3_c16_simulation5.dat" then some [rowA, rowB] else none

/-- A CLI layer defining only the betting field, for the resolution witness. -/
def cliW : String → Option Int := fun k => if k = "betting" then some 3 else none

/-- A namespace-defaults layer defining only the dealer field. -/
def nsW : String → Option Int := fun k => if k = "dealer" then some 1 else none

/-- An environment-derived layer defining stake as 100, as SIM_STAKE does. -/
def envW : String → Option Int := fun k => if k = "stake" then some 100 else none

/-- A built-in defaults layer defining stake 50 and rounds 100. -/
def biW : String → Option Int :=
  fun k => if k = "stake" then some 50 else if k = "rounds" then some 100 else none

/-- A different built-in defaults layer, to exercise stability. -/
def biW2 : String → Option Int := fun k => if k = "stake" then some 7 else none

/-- An attribute dict defining no fields, the state of a fresh Command. -/
def noFields : String → Option Int := fun _ => none

/-- A first bound configuration defining stake and rounds. -/
def nsFirst : String → Option Int :=
  fun k => if k = "stake" then some 50 else if k = "rounds" then some 100 else none

/-- A second bound configuration defining only rounds. -/
def nsSecond : String → Option Int := fun k => if k = "rounds" then some 7 else none

/-- The concrete analyze report of fsDemo under config5. -/
def rep0 : AnalyzeReport := ⟨[rowDemo], ⟨1, 50, 50, 50⟩, 50 / (1 : ℚ), 1 - 50 / (1 : ℚ) / 50⟩

/-- C1: for every configuration field, layered resolution returns the value
from the highest-priority layer that defines the field, in the order explicit
CLI override, explicit namespace defaults, environment-derived values,
built-in defaults; and once a field is resolved from a higher-priority layer,
changing any lower-priority layer at that field does not change the result. -/
theorem c1_layered_resolution {V : Type} (cli ns env bi : String → Option V) (k : String) :
    (∀ v, cli k = some v → resolveField cli ns env bi k = some v) ∧
    (cli k = none → ∀ v, ns k = some v → resolveField cli ns env bi k = some v) ∧
    (cli k = none → ns k = none → ∀ v, env k = some v →
      resolveField cli ns env bi k = some v) ∧
    (cli k = none → ns k = none → env k = none → resolveField cli ns env bi k = bi k) ∧
    (∀ v, cli k = some v → ∀ ns2 env2 bi2, resolveField cli ns2 env2 bi2 k = some v) ∧
    (cli k = none → ∀ v, ns k = some v → ∀ env2 bi2,
      resolveField cli ns env2 bi2 k = some v) ∧
    (cli k = none → ns k = none → ∀ v, env k = some v → ∀ bi2,
      resolveField cli ns env bi2 k = some v) := by
  refine ⟨?_, ?_, ?_, ?_, ?_, ?_, ?_⟩
  · intro v h; simp [resolveField, chainLookup, h]
  · intro h1 v h2; simp [resolveField, chainLookup, h1, h2]
  · intro h1 h2 v h3; simp [resolveField, chainLookup, h1, h2, h3]
  · intro h1 h2 h3
    simp only [resolveField, chainLookup, h1, h2, h3]
    cases hb : bi k <;> simp [hb]
  · intro v h ns2 env2 bi2; simp [resolveField, chainLookup, h]
  · intro h1 v h2 env2 bi2; simp [resolveField, chainLookup, h1, h2]
  · intro h1 h2 v h3 bi2; simp [resolveField, chainLookup, h1, h2, h3]

/-- Witness for C1: with an environment-derived stake of 100 over a built-in
default of 50, resolution yields 100, and replacing the built-in layer does
not change the result. -/
theorem c1_witness :
    resolveField cliW nsW envW biW "stake" = some 100 ∧
    resolveField cliW nsW envW biW2 "stake" = some 100 := by
  have h := (c1_layered_resolution cliW nsW envW biW "stake").2.2.2.2.2.2
  exact ⟨h (by decide) (by decide) 100 (by decide) biW,
         h (by decide) (by decide) 100 (by decide) biW2⟩

/-- C2 counterexample: binding a second configuration that does not define
the stake field leaves the first configuration's stake value in place, so the
second bind is not a wholesale replacement. -/
theorem c2_counterexample :
    Command.set_config (Command.set_config noFields nsFirst) nsSecond "stake" = some 50 ∧
    nsSecond "stake" = none ∧
    Command.set_config (Command.set_config noFields nsFirst) nsSecond "rounds" = some 7 := by
  refine ⟨by decide, by decide, by decide⟩

/-- C2 amended: set_config merges the new configuration into the step's
state: every field the new configuration defines takes its value, while a
field it does not define keeps the previously bound value (a dict update,
not a wholesale replacement). -/
theorem c2_bind_is_merge {V : Type} (self config : String → Option V) (k : String) :
    (∀ v, config k = some v → Command.set_config self config k = some v) ∧
    (config k = none → Command.set_config self config k = self k) := by
  constructor
  · intro v h; simp [Command.set_config, h]
  · intro h; simp [Command.set_config, h]

/-- Witness for C2's amended theorem: a defined field is overwritten and an
undefined field survives. -/
theorem c2_witness :
    Command.set_config (Command.set_config noFields nsFirst) nsSecond "rounds" = some 7 ∧
    Command.set_config (Command.set_config noFields nsFirst) nsSecond "stake" =
      Command.set_config noFields nsFirst "stake" := by
  constructor
  · exact (c2_bind_is_merge (Command.set_config noFields nsFirst) nsSecond "rounds").1 7
      (by decide)
  · exact (c2_bind_is_merge (Command.set_config noFields nsFirst) nsSecond "stake").2
      (by decide)

/-- C3: on an empty record stream the summarizing pass fails with the
explicit empty-stream error (the StopIteration raised by next() on the
exhausted outcome iterator), it does not return a result, and whenever a
result is produced the count dividing the mean is at least 1, so no division
by zero can occur. -/
theorem c3_empty_stream_fails :
    summarize [] = Except.error PyError.stopIteration ∧
    (∀ s : Summary, summarize [] ≠ Except.ok s) ∧
    (∀ outcomes : List ℚ, ∀ s : Summary, summarize outcomes = Except.ok s → 1 ≤ s.sum_0) := by
  refine ⟨rfl, ?_, ?_⟩
  · intro s h; simp [summarize] at h
  · intro outcomes s h
    match outcomes with
    | [] => simp [summarize] at h
    | first :: rest =>
      simp only [summarize, Except.ok.injEq] at h
      subst h
      have : ∀ vs : List ℚ, ∀ c : Nat, ∀ t m M : ℚ,
          (summarizeLoop ⟨c, t, m, M⟩ vs).sum_0 = c + vs.length := by
        intro vs
        induction vs with
        | nil => intro c t m M; simp [summarizeLoop]
        | cons v vs2 ih => intro c t m M; simp [summarizeLoop, ih]; omega
      rw [this rest 1 first first first]
      omega

/-- Witness for C3: a one-element stream produces a result, with count 1. -/
theorem c3_witness :
    summarize [(5 : ℚ)] = Except.ok (Summary.mk 1 5 5 5) ∧
    1 ≤ (Summary.mk 1 5 5 5).sum_0 := by
  refine ⟨by decide, ?_⟩
  exact c3_empty_stream_fails.2.2 [(5 : ℚ)] (Summary.mk 1 5 5 5) (by decide)

/-- Helper: the loop's count is the initial count plus the consumed length. -/
theorem summarizeLoop_count (rest : List ℚ) :
    ∀ (c : Nat) (t m M : ℚ), (summarizeLoop ⟨c, t, m, M⟩ rest).sum_0 = c + rest.length := by
  induction rest with
  | nil => intro c t m M; simp [summarizeLoop]
  | cons v vs ih =>
    intro c t m M
    simp only [summarizeLoop, List.length_cons, ih]
    omega

/-- Helper: the loop's total is the initial total plus the consumed sum. -/
theorem summarizeLoop_total (rest : List ℚ) :
    ∀ (c : Nat) (t m M : ℚ), (summarizeLoop ⟨c, t, m, M⟩ rest).sum_1 = t + rest.sum := by
  induction rest with
  | nil => intro c t m M; simp [summarizeLoop]
  | cons v vs ih =>
    intro c t m M
    simp only [summarizeLoop, List.sum_cons, ih]
    ring

/-- Helper: the loop's running minimum is a lower bound of the initial
minimum and every consumed value, and is attained at one of them. -/
theorem summarizeLoop_low (rest : List ℚ) :
    ∀ (c : Nat) (t m M : ℚ),
      (summarizeLoop ⟨c, t, m, M⟩ rest).value_min ≤ m ∧
      (∀ x ∈ rest, (summarizeLoop ⟨c, t, m, M⟩ rest).value_min ≤ x) ∧
      ((summarizeLoop ⟨c, t, m, M⟩ rest).value_min = m ∨
        (summarizeLoop ⟨c, t, m, M⟩ rest).value_min ∈ rest) := by
  induction rest with
  | nil =>
    intro c t m M
    exact ⟨le_refl m, by intro x hx; simp at hx, Or.inl rfl⟩
  | cons v vs ih =>
    intro c t m M
    simp only [summarizeLoop]
    obtain ⟨h1, h2, h3⟩ := ih (c + 1) (t + v) (min m v) (max M v)
    refine ⟨le_trans h1 (min_le_left m v), ?_, ?_⟩
    · intro x hx
      rcases List.mem_cons.mp hx with rfl | hx2
      · exact le_trans h1 (min_le_right m x)
      · exact h2 x hx2
    · rcases h3 with h3 | h3
      · rcases min_choice m v with hm | hm
        · exact Or.inl (by rw [h3, hm])
        · exact Or.inr (by rw [h3, hm]; exact List.mem_cons_self v vs)
      · exact Or.inr (List.mem_cons_of_mem v h3)

/-- Helper: the loop's running maximum is an upper bound of the initial
maximum and every consumed value, and is attained at one of them. -/
theorem summarizeLoop_high (rest : List ℚ) :
    ∀ (c : Nat) (t m M : ℚ),
      M ≤ (summarizeLoop ⟨c, t, m, M⟩ rest).value_max ∧
      (∀ x ∈ rest, x ≤ (summarizeLoop ⟨c, t, m, M⟩ rest).value_max) ∧
      ((summarizeLoop ⟨c, t, m, M⟩ rest).value_max = M ∨
        (summarizeLoop ⟨c, t, m, M⟩ rest).value_max ∈ rest) := by
  induction rest with
  | nil =>
    intro c t m M
    exact ⟨le_refl M, by intro x hx; simp at hx, Or.inl rfl⟩
  | cons v vs ih =>
    intro c t m M
    simp only [summarizeLoop]
    obtain ⟨h1, h2, h3⟩ := ih (c + 1) (t + v) (min m v) (max M v)
    refine ⟨le_trans (le_max_left M v) h1, ?_, ?_⟩
    · intro x hx
      rcases List.mem_cons.mp hx with rfl | hx2
      · exact le_trans (le_max_right M x) h1
      · exact h2 x hx2
    · rcases h3 with h3 | h3
      · rcases max_choice M v with hm | hm
        · exact Or.inl (by rw [h3, hm])
        · exact Or.inr (by rw [h3, hm]; exact List.mem_cons_self v vs)
      · exact Or.inr (List.mem_cons_of_mem v h3)

/-- Helper: a successful summarizing pass reports the exact count, the exact
total, and extrema that bound every consumed value and are attained in the
stream (the first element included). -/
theorem summarize_ok_spec (outcomes : List ℚ) (s : Summary)
    (hsum : summarize outcomes = Except.ok s) :
    s.sum_0 = outcomes.length ∧ s.sum_1 = outcomes.sum ∧
    s.value_min ∈ outcomes ∧ s.value_max ∈ outcomes ∧
    ∀ x ∈ outcomes, s.value_min ≤ x ∧ x ≤ s.value_max := by
  match outcomes with
  | [] => simp [summarize] at hsum
  | first :: rest =>
    simp only [summarize, Except.ok.injEq] at hsum
    subst hsum
    refine ⟨?_, ?_, ?_, ?_, ?_⟩
    · rw [summarizeLoop_count rest 1 first first first]
      simp [Nat.add_comm]
    · rw [summarizeLoop_total rest 1 first first first]
      simp
    · rcases (summarizeLoop_low rest 1 first first first).2.2 with h | h
      · rw [h]; exact List.mem_cons_self first rest
      · exact List.mem_cons_of_mem first h
    · rcases (summarizeLoop_high rest 1 first first first).2.2 with h | h
      · rw [h]; exact List.mem_cons_self first rest
      · exact List.mem_cons_of_mem first h
    · intro x hx
      rcases List.mem_cons.mp hx with rfl | hx2
      · exact ⟨(summarizeLoop_low rest 1 x x x).1,
               (summarizeLoop_high rest 1 x x x).1⟩
      · exact ⟨(summarizeLoop_low rest 1 first first first).2.1 x hx2,
               (summarizeLoop_high rest 1 first first first).2.1 x hx2⟩

/-- Helper: the summarizing pass evaluated on the spec's concrete stream. -/
theorem summarize_demo :
    summarize [10, 50, 50, 90] = Except.ok ⟨4, 200, 10, 90⟩ := by
  norm_num [summarize, summarizeLoop, min_def, max_def]

/-- C8: on every non-empty stream the single-pass summarizer yields count
equal to the number of records, sum equal to their total, min and max equal
to the true extrema over all records including the first, and mean equal to
sum/count computed at read time; on the stream [10, 50, 50, 90] it yields
count 4, sum 200, min 10, max 90, mean 50, and the reported edge at
reference value 50 is 0. -/
theorem c8_single_pass_summarizer (outcomes : List ℚ) (s : Summary) (x : ℚ)
    (hne : outcomes ≠ []) (hsum : summarize outcomes = Except.ok s) (hx : x ∈ outcomes) :
    s.sum_0 = outcomes.length ∧ s.sum_1 = outcomes.sum ∧
    s.value_min ∈ outcomes ∧ s.value_max ∈ outcomes ∧
    s.value_min ≤ x ∧ x ≤ s.value_max ∧
    mean s = s.sum_1 / (s.sum_0 : ℚ) ∧
    summarize [10, 50, 50, 90] = Except.ok ⟨4, 200, 10, 90⟩ ∧
    mean ⟨4, 200, 10, 90⟩ = 50 ∧
    houseEdge (mean ⟨4, 200, 10, 90⟩) = 0 := by
  obtain ⟨h1, h2, h3, h4, h5⟩ := summarize_ok_spec outcomes s hsum
  exact ⟨h1, h2, h3, h4, (h5 x hx).1, (h5 x hx).2, rfl, summarize_demo,
    by norm_num [mean], by norm_num [houseEdge, mean]⟩

/-- Witness for C8 at the stream [10, 50, 50, 90]. -/
theorem c8_witness :
    (Summary.mk 4 200 10 90).sum_0 = ([10, 50, 50, 90] : List ℚ).length ∧
    (Summary.mk 4 200 10 90).sum_1 = ([10, 50, 50, 90] : List ℚ).sum ∧
    (Summary.mk 4 200 10 90).value_min ∈ ([10, 50, 50, 90] : List ℚ) := by
  have h := c8_single_pass_summarizer [10, 50, 50, 90] ⟨4, 200, 10, 90⟩ 90
    (by simp) summarize_demo (by norm_num)
  exact ⟨h.1, h.2.1, h.2.2.1⟩

/-- Helper: the outcome stream has one scalar per consumed record, and the
scalar at each position is that record's field at position 10. -/
theorem extractOutcomes_spec (rows : List Row) :
    ∀ outs : List ℚ, extractOutcomes rows = some outs →
      outs.length = rows.length ∧
      ∀ i row, rows.get? i = some row → outs.get? i = row.get? 10 := by
  induction rows with
  | nil =>
    intro outs h
    simp only [extractOutcomes, Option.some.injEq] at h
    subst h
    refine ⟨rfl, ?_⟩
    intro i row h
    simp at h
  | cons row rest ih =>
    intro outs h
    simp only [extractOutcomes] at h
    cases hv : outcomeField row with
    | none => rw [hv] at h; simp at h
    | some v =>
      rw [hv] at h
      cases he : extractOutcomes rest with
      | none => rw [he] at h; simp at h
      | some vs =>
        rw [he] at h
        simp only [Option.some.injEq] at h
        subst h
        obtain ⟨hl, hg⟩ := ih vs he
        refine ⟨by simp [hl], ?_⟩
        intro i r hr
        match i with
        | 0 =>
          simp only [List.get?] at hr ⊢
          injection hr with hr
          subst hr
          exact hv.symm
        | Nat.succ j =>
          simp only [List.get?] at hr ⊢
          exact hg j r hr

/-- C9 counterexample: for an 11-field record the code's designated scalar
is the field at 0-indexed position 10, while position 11 of the 0-indexed
11-field record does not exist. -/
theorem c9_counterexample :
    rowA.length = 11 ∧
    outcomeField rowA = some 10 ∧
    outcomeFieldSpec rowA = none ∧
    outcomeField rowA ≠ outcomeFieldSpec rowA := by
  refine ⟨by decide, by decide, by decide, by decide⟩

/-- C9 amended: for every output record consumed by the analyze step, the
scalar fed to the summarizer is the record's field at fixed 0-indexed
position 10 (the eleventh and last field of an 11-field record), and the
report is the summary of exactly that stream of position-10 fields. -/
theorem c9_designated_position (cfg : Config) (fs : FS) (rows : List Row)
    (outs : List ℚ) (s : Summary) (i : Nat) (row : Row)
    (hfs : fs cfg.outputfile = some rows)
    (hex : extractOutcomes rows = some outs)
    (hsum : summarize outs = Except.ok s)
    (hrow : rows.get? i = some row) :
    outs.get? i = row.get? 10 ∧
    Analyze_Command.run cfg fs =
      Except.ok ⟨rows, s, s.sum_1 / (s.sum_0 : ℚ), 1 - s.sum_1 / (s.sum_0 : ℚ) / 50⟩ := by
  refine ⟨(extractOutcomes_spec rows outs hex).2 i row hrow, ?_⟩
  unfold Analyze_Command.run
  simp only [hfs, hex, hsum]

/-- Witness for C9's amended theorem: the second consumed record's scalar is
its position-10 field, and the analyze run reports the summary of the
position-10 stream. -/
theorem c9_witness :
    ([10, 90] : List ℚ).get? 1 = rowB.get? 10 ∧
    Analyze_Command.run config5 fsW =
      Except.ok ⟨[rowA, rowB], ⟨2, 100, 10, 90⟩,
        100 / ((2 : Nat) : ℚ), 1 - 100 / ((2 : Nat) : ℚ) / 50⟩ := by
  exact c9_designated_position config5 fsW [rowA, rowB] [10, 90] ⟨2, 100, 10, 90⟩ 1 rowB
    (by decide) (by decide) (by norm_num [summarize, summarizeLoop, min_def, max_def])
    (by decide)

/-- C4 counterexample: config5's configured stake is 100, yet the analyze
report computes the edge against the literal 50: on a stream of mean 50 the
reported edge is 0 while 1 - mean/stake with the configured stake 100 is
1/2. -/
theorem c4_counterexample :
    config5.stake = 100 ∧
    Analyze_Command.run config5 fsDemo = Except.ok rep0 ∧
    rep0.edge = 0 ∧
    houseEdgeSpec rep0.mean ((config5.stake : Int) : ℚ) = 1 / 2 ∧
    rep0.edge ≠ houseEdgeSpec rep0.mean ((config5.stake : Int) : ℚ) := by
  refine ⟨by decide, ?_, ?_, ?_, ?_⟩
  · unfold Analyze_Command.run
    simp only [show fsDemo config5.outputfile = some [rowDemo] from by decide,
      show extractOutcomes [rowDemo] = some [50] from by decide,
      show summarize [50] = Except.ok ⟨1, 50, 50, 50⟩ from by
        norm_num [summarize, summarizeLoop]]
    rfl
  · norm_num [rep0]
  · norm_num [houseEdgeSpec, rep0, config5]
  · norm_num [houseEdgeSpec, rep0, config5]

/-- C4 amended: the house edge the analyze step reports is 1 - mean/50 with
the hard-coded constant 50; the configured stake does not enter the
computation at all, so changing it leaves the whole report unchanged. -/
theorem c4_edge_hardcoded (cfg : Config) (fs : FS) (r : AnalyzeReport)
    (h : Analyze_Command.run cfg fs = Except.ok r) :
    r.edge = 1 - r.mean / 50 ∧
    r.edge = houseEdge r.mean ∧
    ∀ st : Int, Analyze_Command.run { cfg with stake := st } fs = Except.ok r := by
  have h0 : ∀ st : Int, Analyze_Command.run { cfg with stake := st } fs = Except.ok r :=
    fun _ => h
  have hshape : r.edge = 1 - r.mean / 50 := by
    unfold Analyze_Command.run at h
    split at h
    · simp at h
    · split at h
      · simp at h
      · split at h
        · simp at h
        · injection h with h2
          subst h2
          rfl
  exact ⟨hshape, hshape.trans (by rw [houseEdge]), h0⟩

/-- Witness for C4's amended theorem at config5 over the demo stream. -/
theorem c4_witness :
    rep0.edge = 1 - rep0.mean / 50 ∧
    Analyze_Command.run { config5 with stake := 7 } fsDemo = Except.ok rep0 := by
  have hrun : Analyze_Command.run config5 fsDemo = Except.ok rep0 := by
    unfold Analyze_Command.run
    simp only [show fsDemo config5.outputfile = some [rowDemo] from by decide,
      show extractOutcomes [rowDemo] = some [50] from by decide,
      show summarize [50] = Except.ok ⟨1, 50, 50, 50⟩ from by
        norm_num [summarize, summarizeLoop]]
    rfl
  have h := c4_edge_hardcoded config5 fsDemo rep0 hrun
  exact ⟨h.1, h.2.2 7⟩

/-- C5 counterexample: the error raised for the unknown key "DoesNotExist"
is the same whether the unknown key sits on the betting axis or on the
player axis of two otherwise-valid configurations, so the raised error names
the key but cannot name the axis. -/
theorem c5_counterexample :
    Simulate_Command.run oracle0 cfgBadBetting =
      Except.error (PyError.keyError "DoesNotExist") ∧
    Simulate_Command.run oracle0 cfgBadPlayer =
      Except.error (PyError.keyError "DoesNotExist") ∧
    cfgBadBetting ≠ cfgBadPlayer ∧
    Simulate_Command.run oracle0 cfgBadBetting = Simulate_Command.run oracle0 cfgBadPlayer := by
  refine ⟨by decide, by decide, by decide, by decide⟩

/-- C5 amended: a configuration carrying an unknown key on any strategy axis
makes the simulate step raise the lookup KeyError carrying that unknown key
(but not the axis), at the first failing axis in source order, and the error
is raised before any output file is created. -/
theorem c5_unknown_key_aborts (oracle : Config → List Row) (cfg : Config) :
    (dealer_rule_map cfg.dealer_rule = none →
      Simulate_Command.run oracle cfg = Except.error (PyError.keyError cfg.dealer_rule)) ∧
    ((dealer_rule_map cfg.dealer_rule).isSome → split_rule_map cfg.split_rule = none →
      Simulate_Command.run oracle cfg = Except.error (PyError.keyError cfg.split_rule)) ∧
    ((dealer_rule_map cfg.dealer_rule).isSome → (split_rule_map cfg.split_rule).isSome →
      (parsePayout cfg.payout).isSome → player_rule_map cfg.player_rule = none →
      Simulate_Command.run oracle cfg = Except.error (PyError.keyError cfg.player_rule)) ∧
    ((dealer_rule_map cfg.dealer_rule).isSome → (split_rule_map cfg.split_rule).isSome →
      (parsePayout cfg.payout).isSome → (player_rule_map cfg.player_rule).isSome →
      betting_rule_map cfg.betting_rule = none →
      Simulate_Command.run oracle cfg = Except.error (PyError.keyError cfg.betting_rule)) ∧
    (∀ e, Simulate_Command.run oracle cfg = Except.error e →
      writesOf (Simulate_Command.run oracle cfg) = []) := by
  refine ⟨?_, ?_, ?_, ?_, ?_⟩
  · intro h1
    unfold Simulate_Command.run
    simp only [h1]
  · intro h1 h2
    obtain ⟨d, hd⟩ := Option.isSome_iff_exists.mp h1
    unfold Simulate_Command.run
    simp only [hd, h2]
  · intro h1 h2 h3 h4
    obtain ⟨d, hd⟩ := Option.isSome_iff_exists.mp h1
    obtain ⟨sp, hsp⟩ := Option.isSome_iff_exists.mp h2
    obtain ⟨p, hp⟩ := Option.isSome_iff_exists.mp h3
    unfold Simulate_Command.run
    simp only [hd, hsp, hp, h4]
  · intro h1 h2 h3 h4 h5
    obtain ⟨d, hd⟩ := Option.isSome_iff_exists.mp h1
    obtain ⟨sp, hsp⟩ := Option.isSome_iff_exists.mp h2
    obtain ⟨p, hp⟩ := Option.isSome_iff_exists.mp h3
    obtain ⟨pl, hpl⟩ := Option.isSome_iff_exists.mp h4
    unfold Simulate_Command.run
    simp only [hd, hsp, hp, hpl, h5]
  · intro e h
    rw [h]
    rfl

/-- Witness for C5's amended theorem at the spec's example input. -/
theorem c5_witness :
    Simulate_Command.run oracle0 cfgBadBetting =
      Except.error (PyError.keyError cfgBadBetting.betting_rule) ∧
    writesOf (Simulate_Command.run oracle0 cfgBadBetting) = [] := by
  have h := (c5_unknown_key_aborts oracle0 cfgBadBetting).2.2.2.1
    (by decide) (by decide) (by decide) (by decide) (by decide)
  exact ⟨h, (c5_unknown_key_aborts oracle0 cfgBadBetting).2.2.2.2 _ h⟩

/-- Helper: when all four strategy keys are known and the payout parses, the
simulate step succeeds and writes the engine's rows to the configured output
file. -/
theorem simulateRun_ok (oracle : Config → List Row) (cfg : Config)
    (d : DealerRule) (sp : SplitRule) (p : Int × Int) (pl : PlayerRule) (b : BettingRule)
    (hd : dealer_rule_map cfg.dealer_rule = some d)
    (hs : split_rule_map cfg.split_rule = some sp)
    (hp : parsePayout cfg.payout = some p)
    (hpl : player_rule_map cfg.player_rule = some pl)
    (hb : betting_rule_map cfg.betting_rule = some b) :
    Simulate_Command.run oracle cfg = Except.ok ⟨cfg.outputfile, oracle cfg⟩ := by
  unfold Simulate_Command.run
  simp only [hd, hs, hp, hpl, hb]

/-- Helper: the whole loop-expansion run, for any configuration whose other
three strategy axes are valid: the final in-place state carries the last
variant's fields, and the writes are the three variant files, each holding
the engine's rows for the derived configuration of its own variant only. -/
theorem forAllBets_spec (oracle : Config → List Row) (cfg : Config)
    (d : DealerRule) (sp : SplitRule) (p : Int × Int) (pl : PlayerRule)
    (hd : dealer_rule_map cfg.dealer_rule = some d)
    (hs : split_rule_map cfg.split_rule = some sp)
    (hp : parsePayout cfg.payout = some p)
    (hpl : player_rule_map cfg.player_rule = some pl) :
    ForAllBets_Simulate.run oracle cfg =
      ({ cfg with
          betting_rule := "OneThreeTwoSix"
          outputfile := variantFile "OneThreeTwoSix" },
       Except.ok
         [⟨variantFile "Flat",
            oracle { cfg with betting_rule := "Flat", outputfile := variantFile "Flat" }⟩,
          ⟨variantFile "Martingale",
            oracle { cfg with
              betting_rule := "Martingale"
              outputfile := variantFile "Martingale" }⟩,
          ⟨variantFile "OneThreeTwoSix",
            oracle { cfg with
              betting_rule := "OneThreeTwoSix"
              outputfile := variantFile "OneThreeTwoSix" }⟩]) := by
  have hF := simulateRun_ok oracle
    { cfg with betting_rule := "Flat", outputfile := variantFile "Flat" }
    d sp p pl BettingRule.Flat hd hs hp hpl rfl
  have hM := simulateRun_ok oracle
    { cfg with betting_rule := "Martingale", outputfile := variantFile "Martingale" }
    d sp p pl BettingRule.Martingale hd hs hp hpl rfl
  have hO := simulateRun_ok oracle
    { cfg with betting_rule := "OneThreeTwoSix", outputfile := variantFile "OneThreeTwoSix" }
    d sp p pl BettingRule.OneThreeTwoSix hd hs hp hpl rfl
  simp only [ForAllBets_Simulate.run, forAllBetsLoop, hF, hM, hO]

/-- C6: the loop-expansion step runs the three betting variants in list
order and produces exactly three writes with pairwise-distinct output
targets, each written under a derived configuration that is the originally
bound configuration with only its own variant's betting rule and
variant-derived output name overridden (so derived configurations are
independent of one another). -/
theorem c6_loop_expansion (oracle : Config → List Row) (cfg : Config)
    (hd : (dealer_rule_map cfg.dealer_rule).isSome)
    (hs : (split_rule_map cfg.split_rule).isSome)
    (hp : (parsePayout cfg.payout).isSome)
    (hpl : (player_rule_map cfg.player_rule).isSome) :
    (ForAllBets_Simulate.run oracle cfg).2 =
      Except.ok
        [⟨variantFile "Flat",
           oracle { cfg with betting_rule := "Flat", outputfile := variantFile "Flat" }⟩,
         ⟨variantFile "Martingale",
           oracle { cfg with
             betting_rule := "Martingale"
             outputfile := variantFile "Martingale" }⟩,
         ⟨variantFile "OneThreeTwoSix",
           oracle { cfg with
             betting_rule := "OneThreeTwoSix"
             outputfile := variantFile "OneThreeTwoSix" }⟩] ∧
    variantFile "Flat" ≠ variantFile "Martingale" ∧
    variantFile "Flat" ≠ variantFile "OneThreeTwoSix" ∧
    variantFile "Martingale" ≠ variantFile "OneThreeTwoSix" := by
  obtain ⟨d, hd2⟩ := Option.isSome_iff_exists.mp hd
  obtain ⟨sp, hs2⟩ := Option.isSome_iff_exists.mp hs
  obtain ⟨p, hp2⟩ := Option.isSome_iff_exists.mp hp
  obtain ⟨pl, hpl2⟩ := Option.isSome_iff_exists.mp hpl
  rw [forAllBets_spec oracle cfg d sp p pl hd2 hs2 hp2 hpl2]
  exact ⟨rfl, by decide, by decide, by decide⟩

/-- Witness for C6 at config5 with the empty-output engine oracle. -/
theorem c6_witness :
    (ForAllBets_Simulate.run oracle0 config5).2 =
      Except.ok
        [⟨variantFile "Flat",
           oracle0 { config5 with betting_rule := "Flat", outputfile := variantFile "Flat" }⟩,
         ⟨variantFile "Martingale",
           oracle0 { config5 with
             betting_rule := "Martingale"
             outputfile := variantFile "Martingale" }⟩,
         ⟨variantFile "OneThreeTwoSix",
           oracle0 { config5 with
             betting_rule := "OneThreeTwoSix"
             outputfile := variantFile "OneThreeTwoSix" }⟩] := by
  exact (c6_loop_expansion oracle0 config5 (by decide) (by decide) (by decide) (by decide)).1

/-- C10: after the loop-expansion run completes normally, the expanding
unit's own bound state has been mutated in place and is not restored: its
betting rule is the last variant "OneThreeTwoSix" and its output target is
the last variant's file, regardless of the originally bound betting rule and
output target; every other bound field is unchanged. -/
theorem c10_loop_state_not_restored (oracle : Config → List Row) (cfg : Config)
    (hd : (dealer_rule_map cfg.dealer_rule).isSome)
    (hs : (split_rule_map cfg.split_rule).isSome)
    (hp : (parsePayout cfg.payout).isSome)
    (hpl : (player_rule_map cfg.player_rule).isSome) :
    (ForAllBets_Simulate.run oracle cfg).1.betting_rule = "OneThreeTwoSix" ∧
    (ForAllBets_Simulate.run oracle cfg).1.outputfile =
      "p3_c16_simulation7_OneThreeTwoSix.dat" ∧
    (ForAllBets_Simulate.run oracle cfg).1 =
      { cfg with
        betting_rule := "OneThreeTwoSix"
        outputfile := variantFile "OneThreeTwoSix" } := by
  obtain ⟨d, hd2⟩ := Option.isSome_iff_exists.mp hd
  obtain ⟨sp, hs2⟩ := Option.isSome_iff_exists.mp hs
  obtain ⟨p, hp2⟩ := Option.isSome_iff_exists.mp hp
  obtain ⟨pl, hpl2⟩ := Option.isSome_iff_exists.mp hpl
  rw [forAllBets_spec oracle cfg d sp p pl hd2 hs2 hp2 hpl2]
  exact ⟨rfl, rfl, rfl⟩

/-- Witness for C10 at config5: the bound betting rule "OneThreeTwoSix" and
output target "p3_c16_simulation5.dat" are overwritten by the loop. -/
theorem c10_witness :
    (ForAllBets_Simulate.run oracle0 config5).1.betting_rule = "OneThreeTwoSix" ∧
    (ForAllBets_Simulate.run oracle0 config5).1.outputfile =
      "p3_c16_simulation7_OneThreeTwoSix.dat" ∧
    config5.outputfile = "p3_c16_simulation5.dat" := by
  have h := c10_loop_state_not_restored oracle0 config5
    (by decide) (by decide) (by decide) (by decide)
  exact ⟨h.1, h.2.1, by decide⟩

/-- C7: binding a configuration to the simulate-then-analyze sequence
assigns the very same configuration to both steps in compose order before
any run; running executes the steps in declaration order, the simulate
step's written artifact is the analyze step's input, and the analyze step
consumes exactly the records the simulate step wrote to the shared output
target. -/
theorem c7_sequence_propagation_roundtrip (oracle : Config → List Row) (cfg : Config)
    (fs : FS) (outs : List ℚ) (s : Summary)
    (d : DealerRule) (sp : SplitRule) (p : Int × Int) (pl : PlayerRule) (b : BettingRule)
    (hd : dealer_rule_map cfg.dealer_rule = some d)
    (hs : split_rule_map cfg.split_rule = some sp)
    (hp : parsePayout cfg.payout = some p)
    (hpl : player_rule_map cfg.player_rule = some pl)
    (hb : betting_rule_map cfg.betting_rule = some b)
    (hex : extractOutcomes (oracle cfg) = some outs)
    (hsum : summarize outs = Except.ok s) :
    Command_Sequence.set_config Simulate_and_Analyze.sequence cfg =
      [(StepKind.simulate, cfg), (StepKind.analyze, cfg)] ∧
    applyWrite fs ⟨cfg.outputfile, oracle cfg⟩ cfg.outputfile = some (oracle cfg) ∧
    Simulate_and_Analyze.run oracle cfg fs =
      Except.ok (applyWrite fs ⟨cfg.outputfile, oracle cfg⟩,
        [⟨oracle cfg, s, s.sum_1 / (s.sum_0 : ℚ), 1 - s.sum_1 / (s.sum_0 : ℚ) / 50⟩]) ∧
    (⟨oracle cfg, s, s.sum_1 / (s.sum_0 : ℚ), 1 - s.sum_1 / (s.sum_0 : ℚ) / 50⟩ :
      AnalyzeReport).consumed = oracle cfg := by
  have hfs1 : applyWrite fs ⟨cfg.outputfile, oracle cfg⟩ cfg.outputfile =
      some (oracle cfg) := by
    simp [applyWrite]
  refine ⟨rfl, hfs1, ?_, rfl⟩
  have hsim := simulateRun_ok oracle cfg d sp p pl b hd hs hp hpl hb
  have hana : Analyze_Command.run cfg (applyWrite fs ⟨cfg.outputfile, oracle cfg⟩) =
      Except.ok ⟨oracle cfg, s, s.sum_1 / (s.sum_0 : ℚ),
        1 - s.sum_1 / (s.sum_0 : ℚ) / 50⟩ := by
    unfold Analyze_Command.run
    simp only [hfs1, hex, hsum]
  simp only [Simulate_and_Analyze.run, Command_Sequence.set_config,
    Simulate_and_Analyze.sequence, List.map, Command_Sequence.runSteps, stepRun,
    hsim, hana, List.nil_append, List.append_nil]

/-- Witness for C7: the sequence bound to config5 over an empty file system,
with the two-record engine oracle. -/
theorem c7_witness :
    Command_Sequence.set_config Simulate_and_Analyze.sequence config5 =
      [(StepKind.simulate, config5), (StepKind.analyze, config5)] ∧
    Simulate_and_Analyze.run oracleW config5 fs0 =
      Except.ok (applyWrite fs0 ⟨config5.outputfile, oracleW config5⟩,
        [⟨oracleW config5, ⟨2, 100, 10, 90⟩,
          100 / ((2 : Nat) : ℚ), 1 - 100 / ((2 : Nat) : ℚ) / 50⟩]) := by
  have h := c7_sequence_propagation_roundtrip oracleW config5 fs0 [10, 90]
    ⟨2, 100, 10, 90⟩ DealerRule.Hit17 SplitRule.NoReSplitAces (3, 2)
    PlayerRule.SomeStrategy BettingRule.OneThreeTwoSix
    (by decide) (by decide) (by decide) (by decide) (by decide) (by decide)
    (by norm_num [summarize, summarizeLoop, min_def, max_def])
  exact ⟨h.1, h.2.2.1⟩

end P3C16
